import Mathlib

/-!
Shallow embedding of the `fomantic-ui-rust` callback-bridging core
(`src/action.rs`, `src/modules/modal.rs`, `src/modules/toast.rs`,
`src/leptos/table.rs`).

Modelling conventions:
* A wasm-bindgen `Closure` is a `Closure α β`: a unique host-invocable
  handle (`id`, allocated from the host counter) plus the wrapped Rust
  function.  Rust ownership is modelled by structure containment: a
  record owns exactly the `Closure` values stored in its fields.
* The JavaScript side is a `Host` state threaded explicitly: a fresh-id
  counter, the ordered list of host events (constructor calls, command
  invocations, boolean queries), and an oracle supplying the results of
  boolean queries.
* The JS property bags (`Object` instances written through
  wasm-bindgen setters) are records of `Option` fields: `none` means the
  property was never assigned; a setter call writes `some _`.  Callback
  properties store the closure's handle `id`.
-/

namespace FomanticUI

/-- An opaque JavaScript value (the `JsValue` argument of lifecycle
handlers and the payload of caught JS exceptions). -/
structure JsValue where
  val : Nat
deriving DecidableEq, Repr

/-- A wasm-bindgen `Closure<dyn Fn(α) -> β>`: a stable host-invocable
handle plus the wrapped application function. -/
structure Closure (α β : Type) where
  id : Nat
  fn : α → β

/-- The property bag written through the `JsActionConfig` setters
(`src/action.rs`, extern block). -/
structure ActionBag where
  text : Option String := none
  class_ : Option String := none
  icon : Option String := none
  click : Option Nat := none
deriving DecidableEq, Repr

/-- The property bag written through the `JsToastConfig` setters
(`src/modules/toast.rs`, extern block). -/
structure ToastBag where
  message : Option String := none
  title : Option String := none
  class_ : Option String := none
  position : Option String := none
  newestOnTop : Option Bool := none
  horizontal : Option Bool := none
  displayTime : Option String := none
  showProgress : Option String := none
  classProgress : Option String := none
  progressUp : Option Bool := none
  actions : Option (List ActionBag) := none
  classActions : Option String := none
  handler : Option Nat := none
deriving DecidableEq, Repr

/-- The property bag written through the `JsModalConfig` setters used by
the crate (`src/modules/modal.rs`, extern block).  The extern block also
declares further setters (detachable, transition, …) that no code in the
crate invokes; they never appear in any accumulated bag. -/
structure ModalBag where
  title : Option String := none
  content : Option String := none
  class_ : Option String := none
  closeIcon : Option Bool := none
  onShow : Option Nat := none
  onVisible : Option Nat := none
  onHide : Option Nat := none
  onHidden : Option Nat := none
  onApprove : Option Nat := none
  onDeny : Option Nat := none
  actions : Option (List ActionBag) := none
deriving DecidableEq, Repr

/-- A single host event observable at the interop boundary. -/
inductive HostEvent where
  /-- `$.toast(config)` constructor call with the bag passed. -/
  | ctorToast (bag : ToastBag) (handle : Nat)
  /-- `$.modal(config)` constructor call with the bag passed. -/
  | ctorModal (bag : ModalBag) (handle : Nat)
  /-- `$.modal("alert", title, content, handler)` template constructor. -/
  | ctorModalAlert (template title content : String) (handlerId : Nat)
      (handle : Nat)
  /-- `$.modal("confirm", title, content, handler)` template constructor. -/
  | ctorModalConfirm (template title content : String) (handlerId : Nat)
      (handle : Nat)
  /-- `$.modal("prompt", title, content, handler)` template constructor. -/
  | ctorModalPrompt (template title content : String) (handlerId : Nat)
      (handle : Nat)
  /-- `$.modal(serialized_value)` constructor of the serde-based variant. -/
  | ctorModalFromValue (props : JsValue) (handle : Nat)
  /-- A void command `handle.modal(token)` / named command invocation. -/
  | cmd (handle : Nat) (token : String)
  /-- A boolean query `handle.modal(token) -> bool` with the host's answer. -/
  | boolQuery (handle : Nat) (token : String) (result : Bool)
deriving DecidableEq, Repr

/-- Is the event a host constructor call (as opposed to a command or
query on an existing host object)? -/
def HostEvent.isCtor : HostEvent → Bool
  | .ctorToast _ _ => true
  | .ctorModal _ _ => true
  | .ctorModalAlert _ _ _ _ _ => true
  | .ctorModalConfirm _ _ _ _ _ => true
  | .ctorModalPrompt _ _ _ _ _ => true
  | .ctorModalFromValue _ _ => true
  | .cmd _ _ => false
  | .boolQuery _ _ _ => false

/-- The JavaScript host state: a fresh-handle counter, the ordered
event trace, and an oracle giving the host's answer to each boolean
query (handle, token). -/
structure Host where
  nextId : Nat
  events : List HostEvent
  boolOracle : Nat → String → Bool

/-- A host state with an empty trace. -/
def Host.init : Host := ⟨0, [], fun _ _ => false⟩

/-- Allocate a fresh host handle. -/
def Host.alloc (h : Host) : Nat × Host :=
  (h.nextId, { h with nextId := h.nextId + 1 })

/-- Record one event at the end of the trace. -/
def Host.emit (h : Host) (e : HostEvent) : Host :=
  { h with events := h.events ++ [e] }

/-- Number of host constructor calls in a trace. -/
def ctorCount (events : List HostEvent) : Nat :=
  (events.filter HostEvent.isCtor).length

/-- `Closure::new(f)`: wrap an application function behind a fresh
host-invocable handle. -/
def Closure.new {α β : Type} (f : α → β) (h : Host) : Closure α β × Host :=
  let (i, h') := h.alloc
  (⟨i, f⟩, h')

/-- The host invoking handle `handle` against a live slot `c`: the slot
answers exactly when the handle is its own. -/
def Closure.invoke {α β : Type} (c : Closure α β) (handle : Nat) (x : α) :
    Option β :=
  if c.id = handle then some (c.fn x) else none

/-! ## Property-bag setters (the extern wasm-bindgen setters) -/

/-- `JsActionConfig::new()` — a fresh `Object`. -/
def ActionBag.new : ActionBag := {}

/-- `set_text` setter of `JsActionConfig`. -/
def ActionBag.set_text (c : ActionBag) (text : String) : ActionBag :=
  { c with text := some text }

/-- `set_class` setter of `JsActionConfig`. -/
def ActionBag.set_class (c : ActionBag) (cls : String) : ActionBag :=
  { c with class_ := some cls }

/-- `set_icon` setter of `JsActionConfig`. -/
def ActionBag.set_icon (c : ActionBag) (icon : String) : ActionBag :=
  { c with icon := some icon }

/-- `set_click` setter of `JsActionConfig`: stores the closure's
host-invocable handle. -/
def ActionBag.set_click (c : ActionBag) (click : Closure Unit Bool) :
    ActionBag :=
  { c with click := some click.id }

/-- `JsToastConfig::new()` — a fresh `Object`. -/
def ToastBag.new : ToastBag := {}

/-- `set_message` setter of `JsToastConfig`. -/
def ToastBag.set_message (c : ToastBag) (message : String) : ToastBag :=
  { c with message := some message }

/-- `set_title` setter of `JsToastConfig`. -/
def ToastBag.set_title (c : ToastBag) (title : String) : ToastBag :=
  { c with title := some title }

/-- `set_class` setter of `JsToastConfig`. -/
def ToastBag.set_class (c : ToastBag) (cls : String) : ToastBag :=
  { c with class_ := some cls }

/-- `set_position` setter of `JsToastConfig`. -/
def ToastBag.set_position (c : ToastBag) (position : String) : ToastBag :=
  { c with position := some position }

/-- `set_newest_on_top` setter of `JsToastConfig`. -/
def ToastBag.set_newest_on_top (c : ToastBag) (isOnTop : Bool) : ToastBag :=
  { c with newestOnTop := some isOnTop }

/-- `set_horizontal` setter of `JsToastConfig`. -/
def ToastBag.set_horizontal (c : ToastBag) (horizontal : Bool) : ToastBag :=
  { c with horizontal := some horizontal }

/-- `set_display_time` setter of `JsToastConfig`. -/
def ToastBag.set_display_time (c : ToastBag) (displayTime : String) :
    ToastBag :=
  { c with displayTime := some displayTime }

/-- `set_progress_bar_position` setter of `JsToastConfig`
(JS name `showProgress`). -/
def ToastBag.set_progress_bar_position (c : ToastBag) (position : String) :
    ToastBag :=
  { c with showProgress := some position }

/-- `set_progress_bar_class` setter of `JsToastConfig`
(JS name `classProgress`). -/
def ToastBag.set_progress_bar_class (c : ToastBag) (cls : String) :
    ToastBag :=
  { c with classProgress := some cls }

/-- `set_progress_up` setter of `JsToastConfig`. -/
def ToastBag.set_progress_up (c : ToastBag) (value : Bool) : ToastBag :=
  { c with progressUp := some value }

/-- `set_actions` setter of `JsToastConfig`: stores the boxed slice of
action bags. -/
def ToastBag.set_actions (c : ToastBag) (value : List ActionBag) :
    ToastBag :=
  { c with actions := some value }

/-- `set_handler` setter of `JsToastConfig` (declared in the extern
block; no code in the crate invokes it). -/
def ToastBag.set_handler (c : ToastBag) (handler : Closure Unit Unit) :
    ToastBag :=
  { c with handler := some handler.id }

/-- `JsModalConfig::new()` — a fresh `Object`. -/
def ModalBag.new : ModalBag := {}

/-- `set_title` setter of `JsModalConfig`. -/
def ModalBag.set_title (c : ModalBag) (title : String) : ModalBag :=
  { c with title := some title }

/-- `set_content` setter of `JsModalConfig`. -/
def ModalBag.set_content (c : ModalBag) (content : String) : ModalBag :=
  { c with content := some content }

/-- `set_class` setter of `JsModalConfig`. -/
def ModalBag.set_class (c : ModalBag) (cls : String) : ModalBag :=
  { c with class_ := some cls }

/-- `set_close_icon` setter of `JsModalConfig`. -/
def ModalBag.set_close_icon (c : ModalBag) (value : Bool) : ModalBag :=
  { c with closeIcon := some value }

/-- `set_on_show` setter of `JsModalConfig`: stores the closure handle. -/
def ModalBag.set_on_show (c : ModalBag) (value : Closure Unit Bool) :
    ModalBag :=
  { c with onShow := some value.id }

/-- `set_on_visible` setter of `JsModalConfig`. -/
def ModalBag.set_on_visible (c : ModalBag) (value : Closure Unit Bool) :
    ModalBag :=
  { c with onVisible := some value.id }

/-- `set_on_hide` setter of `JsModalConfig`. -/
def ModalBag.set_on_hide (c : ModalBag) (value : Closure JsValue Bool) :
    ModalBag :=
  { c with onHide := some value.id }

/-- `set_on_hidden` setter of `JsModalConfig`. -/
def ModalBag.set_on_hidden (c : ModalBag) (value : Closure Unit Bool) :
    ModalBag :=
  { c with onHidden := some value.id }

/-- `set_on_approve` setter of `JsModalConfig`. -/
def ModalBag.set_on_approve (c : ModalBag) (value : Closure JsValue Bool) :
    ModalBag :=
  { c with onApprove := some value.id }

/-- `set_on_deny` setter of `JsModalConfig`. -/
def ModalBag.set_on_deny (c : ModalBag) (value : Closure JsValue Bool) :
    ModalBag :=
  { c with onDeny := some value.id }

/-- `set_actions` setter of `JsModalConfig`. -/
def ModalBag.set_actions (c : ModalBag) (value : List ActionBag) :
    ModalBag :=
  { c with actions := some value }

/-! ## `src/action.rs` -/

/-- `Action`: owns the `click` closure and the action's property bag. -/
structure Action where
  click : Closure Unit Bool
  js_config : ActionBag

/-- `Action::new()`: fresh bag, default click closure `|| true`. -/
def Action.new (h : Host) : Action × Host :=
  let js_config := ActionBag.new
  let (click, h') := Closure.new (fun (_ : Unit) => true) h
  (⟨click, js_config⟩, h')

/-- `Action::with_text`. -/
def Action.with_text (a : Action) (text : String) : Action :=
  { a with js_config := a.js_config.set_text text }

/-- `Action::with_class`. -/
def Action.with_class (a : Action) (cls : String) : Action :=
  { a with js_config := a.js_config.set_class cls }

/-- `Action::with_icon`. -/
def Action.with_icon (a : Action) (icon : String) : Action :=
  { a with js_config := a.js_config.set_icon icon }

/-- `Action::click(self, click)`: replaces the owned click slot with a
fresh closure over the new handler, then writes the current slot's
handle into the bag.  (Named `click_handler` here because the structure
field is already named `click`.) -/
def Action.click_handler (a : Action) (click : Unit → Bool) (h : Host) :
    Action × Host :=
  let (cl, h') := Closure.new click h
  ({ a with click := cl, js_config := a.js_config.set_click cl }, h')

/-! ## `src/modules/toast.rs` -/

/-- `ToastDisplayTime`. -/
inductive ToastDisplayTime where
  /-- Visible for the given number of milliseconds (`u32`). -/
  | Time (t : Nat)
  /-- Visible until clicked. -/
  | UntilClicked
  /-- Display time generated from the amount of contained words. -/
  | BasedOnWordAmount

/-- The `Display` rendering of `ToastDisplayTime`. -/
def ToastDisplayTime.toString : ToastDisplayTime → String
  | .Time t => Nat.repr t
  | .UntilClicked => "0"
  | .BasedOnWordAmount => "auto"

/-- `ToastProgressBarPosition` (default: `Bottom`). -/
inductive ToastProgressBarPosition where
  | Bottom
  | Top

/-- The `Display` rendering of `ToastProgressBarPosition`. -/
def ToastProgressBarPosition.toString : ToastProgressBarPosition → String
  | .Bottom => "bottom"
  | .Top => "top"

/-- `ToastProgressBar`. -/
structure ToastProgressBar where
  position : ToastProgressBarPosition := .Bottom
  class_ : Option String := none
  increasing : Bool := false

/-- `ToastPosition` (default: `BottomRight`). -/
inductive ToastPosition where
  | BottomRight
  | BottomLeft
  | TopRight
  | TopLeft
  | TopAttached
  | BottomAttached

/-- The `Display` rendering of `ToastPosition`. -/
def ToastPosition.toString : ToastPosition → String
  | .BottomRight => "bottom right"
  | .BottomLeft => "bottom left"
  | .TopRight => "top right"
  | .TopLeft => "top left"
  | .TopAttached => "top attached"
  | .BottomAttached => "bottom attached"

/-- `ToastConfig`: owns the (never-registered) `handler` closure, the
per-action click closures, and the toast property bag. -/
structure ToastConfig where
  handler : Closure Unit Unit
  action_handler_list : List (Closure Unit Bool)
  js_config : ToastBag

/-- `ToastConfig::new()`. -/
def ToastConfig.new (h : Host) : ToastConfig × Host :=
  let js_config := ToastBag.new
  let (handler, h') := Closure.new (fun (_ : Unit) => ()) h
  (⟨handler, [], js_config⟩, h')

/-- `ToastConfig::with_message`. -/
def ToastConfig.with_message (c : ToastConfig) (message : String) :
    ToastConfig :=
  { c with js_config := c.js_config.set_message message }

/-- `ToastConfig::with_title`. -/
def ToastConfig.with_title (c : ToastConfig) (title : String) :
    ToastConfig :=
  { c with js_config := c.js_config.set_title title }

/-- `ToastConfig::with_progress_bar`: writes the position, the class
only when present, and the `progressUp` flag. -/
def ToastConfig.with_progress_bar (c : ToastConfig)
    (progress_bar : ToastProgressBar) : ToastConfig :=
  let bag := c.js_config.set_progress_bar_position
    progress_bar.position.toString
  let bag := match progress_bar.class_ with
    | some cls => bag.set_progress_bar_class cls
    | none => bag
  { c with js_config := bag.set_progress_up progress_bar.increasing }

/-- `ToastConfig::with_class`. -/
def ToastConfig.with_class (c : ToastConfig) (cls : String) : ToastConfig :=
  { c with js_config := c.js_config.set_class cls }

/-- `ToastConfig::position`. -/
def ToastConfig.position (c : ToastConfig) (position : ToastPosition) :
    ToastConfig :=
  { c with js_config := c.js_config.set_position position.toString }

/-- `ToastConfig::newest_on_top`. -/
def ToastConfig.newest_on_top (c : ToastConfig) (isOnTop : Bool) :
    ToastConfig :=
  { c with js_config := c.js_config.set_newest_on_top isOnTop }

/-- `ToastConfig::horizontal`. -/
def ToastConfig.horizontal (c : ToastConfig) (horizontal : Bool) :
    ToastConfig :=
  { c with js_config := c.js_config.set_horizontal horizontal }

/-- `ToastConfig::display_time`. -/
def ToastConfig.display_time (c : ToastConfig)
    (display_time : ToastDisplayTime) : ToastConfig :=
  { c with js_config := c.js_config.set_display_time display_time.toString }

/-- `ToastConfig::with_actions`: the source loops over `actions`,
pushing each `act.click` onto `self.action_handler_list` and each
`act.js_config` onto a local `js_actions` vector in order, then writes
`js_actions` into the bag's `actions` property. -/
def ToastConfig.with_actions (c : ToastConfig) (actions : List Action) :
    ToastConfig :=
  let js_actions := actions.map (fun act => act.js_config)
  { c with
    action_handler_list :=
      c.action_handler_list ++ actions.map (fun act => act.click),
    js_config := c.js_config.set_actions js_actions }

/-- The handles of all callback slots a `ToastConfig` owns: its
`handler` plus the per-action click slots. -/
def ToastConfig.ownedSlotIds (c : ToastConfig) : List Nat :=
  c.handler.id :: c.action_handler_list.map (fun cl => cl.id)

/-- `Toast`: a wasm-bindgen extern type — an opaque host object
reference.  It has no Rust fields, hence owns no callback slots. -/
structure Toast where
  id : Nat
deriving DecidableEq, Repr

/-- The handles of all callback slots a `Toast` owns: none, since the
extern type contains no closures. -/
def Toast.ownedSlotIds (_ : Toast) : List Nat := []

/-- Extern `$.toast(config)`: allocates a host object and records the
constructor call with the bag passed. -/
def new_toast (config : ToastBag) (h : Host) : Toast × Host :=
  let (i, h') := h.alloc
  (⟨i⟩, h'.emit (.ctorToast config i))

/-- `Toast::new(config: &ToastConfig)`: borrows the configuration and
passes its bag to the host constructor. -/
def Toast.new (config : ToastConfig) (h : Host) : Toast × Host :=
  new_toast config.js_config h

/-- `Toast::minimal(message)`. -/
def Toast.minimal (message : String) (h : Host) : Toast × Host :=
  let config := ToastBag.new
  let config := config.set_message message
  new_toast config h

/-- `Toast::titled(title, message)`. -/
def Toast.titled (title message : String) (h : Host) : Toast × Host :=
  let config := ToastBag.new
  let config := config.set_title title
  let config := config.set_message message
  new_toast config h

/-! ## `src/modules/modal.rs` (active code) -/

/-- `ModalConfig`: owns the modal property bag and one closure per
lifecycle role. -/
structure ModalConfig where
  js_config : ModalBag
  on_show : Closure Unit Bool
  on_visible : Closure Unit Bool
  on_hide : Closure JsValue Bool
  on_hidden : Closure Unit Bool
  on_approve : Closure JsValue Bool
  on_deny : Closure JsValue Bool

/-- `ModalConfig::default()`: fresh bag (no property assigned), and one
default closure per role, each returning `true`.  No closure handle is
written into the bag. -/
def ModalConfig.default (h : Host) : ModalConfig × Host :=
  let js_config := ModalBag.new
  let (on_show, h) := Closure.new (fun (_ : Unit) => true) h
  let (on_visible, h) := Closure.new (fun (_ : Unit) => true) h
  let (on_hide, h) := Closure.new (fun (_ : JsValue) => true) h
  let (on_hidden, h) := Closure.new (fun (_ : Unit) => true) h
  let (on_approve, h) := Closure.new (fun (_ : JsValue) => true) h
  let (on_deny, h) := Closure.new (fun (_ : JsValue) => true) h
  (⟨js_config, on_show, on_visible, on_hide, on_hidden, on_approve,
    on_deny⟩, h)

/-- `ModalConfig::set_on_show`: replace the owned slot, then write the
current slot's handle into the bag. -/
def ModalConfig.set_on_show (c : ModalConfig) (handler : Unit → Bool)
    (h : Host) : ModalConfig × Host :=
  let (cl, h') := Closure.new handler h
  ({ c with on_show := cl, js_config := c.js_config.set_on_show cl }, h')

/-- `ModalConfig::set_on_visible`. -/
def ModalConfig.set_on_visible (c : ModalConfig) (handler : Unit → Bool)
    (h : Host) : ModalConfig × Host :=
  let (cl, h') := Closure.new handler h
  ({ c with on_visible := cl
            js_config := c.js_config.set_on_visible cl }, h')

/-- `ModalConfig::set_on_hide`. -/
def ModalConfig.set_on_hide (c : ModalConfig) (handler : JsValue → Bool)
    (h : Host) : ModalConfig × Host :=
  let (cl, h') := Closure.new handler h
  ({ c with on_hide := cl, js_config := c.js_config.set_on_hide cl }, h')

/-- `ModalConfig::set_on_hidden`. -/
def ModalConfig.set_on_hidden (c : ModalConfig) (handler : Unit → Bool)
    (h : Host) : ModalConfig × Host :=
  let (cl, h') := Closure.new handler h
  ({ c with on_hidden := cl
            js_config := c.js_config.set_on_hidden cl }, h')

/-- `ModalConfig::set_on_approve`. -/
def ModalConfig.set_on_approve (c : ModalConfig) (handler : JsValue → Bool)
    (h : Host) : ModalConfig × Host :=
  let (cl, h') := Closure.new handler h
  ({ c with on_approve := cl
            js_config := c.js_config.set_on_approve cl }, h')

/-- `ModalConfig::set_on_deny`. -/
def ModalConfig.set_on_deny (c : ModalConfig) (handler : JsValue → Bool)
    (h : Host) : ModalConfig × Host :=
  let (cl, h') := Closure.new handler h
  ({ c with on_deny := cl, js_config := c.js_config.set_on_deny cl }, h')

/-- The handles of all callback slots a `ModalConfig` owns (its six
lifecycle role slots). -/
def ModalConfig.ownedSlotIds (c : ModalConfig) : List Nat :=
  [c.on_show.id, c.on_visible.id, c.on_hide.id, c.on_hidden.id,
   c.on_approve.id, c.on_deny.id]

/-- `JsModal`: extern opaque reference to a live host modal. -/
structure JsModal where
  id : Nat
deriving DecidableEq, Repr

/-- Extern `$.modal(props)`: allocates a host object and records the
constructor call with the bag passed. -/
def new_modal (props : ModalBag) (h : Host) : JsModal × Host :=
  let (i, h') := h.alloc
  (⟨i⟩, h'.emit (.ctorModal props i))

/-- Extern `$.modal("alert", title, content, handler)`. -/
def new_modal_alert (props title content : String)
    (handler : Closure Unit Unit) (h : Host) : JsModal × Host :=
  let (i, h') := h.alloc
  (⟨i⟩, h'.emit (.ctorModalAlert props title content handler.id i))

/-- Extern `$.modal("confirm", title, content, handler)`. -/
def new_modal_confirm (props title content : String)
    (handler : Closure Bool Unit) (h : Host) : JsModal × Host :=
  let (i, h') := h.alloc
  (⟨i⟩, h'.emit (.ctorModalConfirm props title content handler.id i))

/-- Extern `$.modal("prompt", title, content, handler)`. -/
def new_modal_prompt (props title content : String)
    (handler : Closure (Option String) Unit) (h : Host) : JsModal × Host :=
  let (i, h') := h.alloc
  (⟨i⟩, h'.emit (.ctorModalPrompt props title content handler.id i))

/-- Extern `this.modal(behavior)`: a void command on a live modal. -/
def JsModal.modal (m : JsModal) (behavior : String) (h : Host) : Host :=
  h.emit (.cmd m.id behavior)

/-- Extern `this.modal(behavior) -> bool`: a boolean query on a live
modal, answered by the host oracle. -/
def JsModal.modal_returns_bool (m : JsModal) (behavior : String)
    (h : Host) : Bool × Host :=
  (h.boolOracle m.id behavior,
   h.emit (.boolQuery m.id behavior (h.boolOracle m.id behavior)))

/-- `Modal`: owns the host handle, the `ModalConfig` (with its six role
slots), the per-action click slots, and the optional template
handlers. -/
structure Modal where
  js_modal : JsModal
  modal_config : ModalConfig
  action_handler_list : List (Closure Unit Bool)
  alert_handler : Option (Closure Unit Unit)
  confirm_handler : Option (Closure Bool Unit)
  prompt_handler : Option (Closure (Option String) Unit)

/-- The handles of all callback slots a `Modal` owns. -/
def Modal.ownedSlotIds (m : Modal) : List Nat :=
  m.modal_config.ownedSlotIds
    ++ m.action_handler_list.map (fun cl => cl.id)
    ++ (m.alert_handler.map (fun cl => cl.id)).toList
    ++ (m.confirm_handler.map (fun cl => cl.id)).toList
    ++ (m.prompt_handler.map (fun cl => cl.id)).toList

/-- `Modal::default()`: builds a default `ModalConfig` and immediately
invokes the host constructor on it. -/
def Modal.default (h : Host) : Modal × Host :=
  let (modal_config, h) := ModalConfig.default h
  let (js_modal, h) := new_modal modal_config.js_config h
  (⟨js_modal, modal_config, [], none, none, none⟩, h)

/-- `Modal::new(modal_config)`: consumes the `ModalConfig` by value.
The Rust struct expression is
`Self { js_modal: new_modal(&modal_config), modal_config,
..Default::default() }`; the functional-record-update base expression
`Default::default()` is evaluated in full, so a complete default
`Modal` — including a second `$.modal` host constructor call on a fresh
default bag — is built, and only its last four fields are kept. -/
def Modal.new (modal_config : ModalConfig) (h : Host) : Modal × Host :=
  let (js_modal, h) := new_modal modal_config.js_config h
  let (d, h) := Modal.default h
  ({ js_modal := js_modal, modal_config := modal_config,
     action_handler_list := d.action_handler_list,
     alert_handler := d.alert_handler,
     confirm_handler := d.confirm_handler,
     prompt_handler := d.prompt_handler }, h)

/-- `Modal::new_alert(title, content, handler)`: template constructor;
the `..Default::default()` base again evaluates `Modal::default()`. -/
def Modal.new_alert (title content : String) (handler : Unit → Unit)
    (h : Host) : Modal × Host :=
  let (handler, h) := Closure.new handler h
  let (js_modal, h) := new_modal_alert "alert" title content handler h
  let (d, h) := Modal.default h
  ({ js_modal := js_modal, modal_config := d.modal_config,
     action_handler_list := d.action_handler_list,
     alert_handler := some handler,
     confirm_handler := d.confirm_handler,
     prompt_handler := d.prompt_handler }, h)

/-- `Modal::new_confirm(title, content, handler)`. -/
def Modal.new_confirm (title content : String) (handler : Bool → Unit)
    (h : Host) : Modal × Host :=
  let (handler, h) := Closure.new handler h
  let (js_modal, h) := new_modal_confirm "confirm" title content handler h
  let (d, h) := Modal.default h
  ({ js_modal := js_modal, modal_config := d.modal_config,
     action_handler_list := d.action_handler_list,
     alert_handler := d.alert_handler,
     confirm_handler := some handler,
     prompt_handler := d.prompt_handler }, h)

/-- `Modal::new_prompt(title, content, handler)`. -/
def Modal.new_prompt (title content : String)
    (handler : Option String → Unit) (h : Host) : Modal × Host :=
  let (handler, h) := Closure.new handler h
  let (js_modal, h) := new_modal_prompt "prompt" title content handler h
  let (d, h) := Modal.default h
  ({ js_modal := js_modal, modal_config := d.modal_config,
     action_handler_list := d.action_handler_list,
     alert_handler := d.alert_handler,
     confirm_handler := d.confirm_handler,
     prompt_handler := some handler }, h)

/-- `Modal::with_title` (writes through the shared JS bag object). -/
def Modal.with_title (m : Modal) (title : String) : Modal :=
  { m with modal_config := { m.modal_config with
      js_config := m.modal_config.js_config.set_title title } }

/-- `Modal::with_content`. -/
def Modal.with_content (m : Modal) (value : String) : Modal :=
  { m with modal_config := { m.modal_config with
      js_config := m.modal_config.js_config.set_content value } }

/-- `Modal::with_class`. -/
def Modal.with_class (m : Modal) (cls : String) : Modal :=
  { m with modal_config := { m.modal_config with
      js_config := m.modal_config.js_config.set_class cls } }

/-- `Modal::with_close_icon`. -/
def Modal.with_close_icon (m : Modal) (value : Bool) : Modal :=
  { m with modal_config := { m.modal_config with
      js_config := m.modal_config.js_config.set_close_icon value } }

/-- `Modal::with_actions`: pushes each `act.click` onto
`self.action_handler_list` and each `act.js_config` onto a local
`js_actions` vector in order, then writes `js_actions` into the bag's
`actions` property. -/
def Modal.with_actions (m : Modal) (actions : List Action) : Modal :=
  let js_actions := actions.map (fun act => act.js_config)
  { m with
    action_handler_list :=
      m.action_handler_list ++ actions.map (fun act => act.click),
    modal_config := { m.modal_config with
      js_config := m.modal_config.js_config.set_actions js_actions } }

/-- `Modal::show`. -/
def Modal.show (m : Modal) (h : Host) : Host :=
  m.js_modal.modal "show" h

/-- `Modal::hide`. -/
def Modal.hide (m : Modal) (h : Host) : Host :=
  m.js_modal.modal "hide" h

/-- `Modal::toggle`. -/
def Modal.toggle (m : Modal) (h : Host) : Host :=
  m.js_modal.modal "toggle" h

/-- `Modal::refresh`. -/
def Modal.refresh (m : Modal) (h : Host) : Host :=
  m.js_modal.modal "refresh" h

/-- `Modal::show_dimmer`. -/
def Modal.show_dimmer (m : Modal) (h : Host) : Host :=
  m.js_modal.modal "show dimmer" h

/-- `Modal::hide_dimmer`. -/
def Modal.hide_dimmer (m : Modal) (h : Host) : Host :=
  m.js_modal.modal "hide dimmer" h

/-- `Modal::hide_others`. -/
def Modal.hide_others (m : Modal) (h : Host) : Host :=
  m.js_modal.modal "hide others" h

/-- `Modal::hide_all`. -/
def Modal.hide_all (m : Modal) (h : Host) : Host :=
  m.js_modal.modal "hide all" h

/-- `Modal::cache_sizes`. -/
def Modal.cache_sizes (m : Modal) (h : Host) : Host :=
  m.js_modal.modal "cache sizes" h

/-- `Modal::can_fit`. -/
def Modal.can_fit (m : Modal) (h : Host) : Bool × Host :=
  m.js_modal.modal_returns_bool "can fit" h

/-- `Modal::is_active`. -/
def Modal.is_active (m : Modal) (h : Host) : Bool × Host :=
  m.js_modal.modal_returns_bool "is active" h

/-- `Modal::set_active`. -/
def Modal.set_active (m : Modal) (h : Host) : Host :=
  m.js_modal.modal "set active" h

/-- `Modal::destroy`. -/
def Modal.destroy (m : Modal) (h : Host) : Host :=
  m.js_modal.modal "destroy" h

/-! ## `src/leptos/table.rs` — keyed list reconciliation

The `For` key closure builds a fresh `DefaultHasher`, feeds the row item
into it via the item's `Hash` implementation, and returns
`hasher.finish()`.  We model the hasher as a stream accumulator: the
item's `Hash` implementation determines the byte stream written
(`hashStream`), and `finish` is a deterministic mix of the accumulated
stream.  The concrete mixing below stands in for SipHash-1-3; like
SipHash-1-3 with the fixed `DefaultHasher::new()` keys, it is a pure
function of the written stream only. -/

/-- `std::hash::DefaultHasher`, modelled as the list of bytes written so
far. -/
structure DefaultHasher where
  data : List Nat

/-- `DefaultHasher::new()` — deterministic, fixed initial state. -/
def DefaultHasher.new : DefaultHasher := ⟨[]⟩

/-- `Hasher::write`: append bytes to the stream. -/
def DefaultHasher.write (hsh : DefaultHasher) (bytes : List Nat) :
    DefaultHasher :=
  ⟨hsh.data ++ bytes⟩

/-- `Hasher::finish`: a deterministic mix of the accumulated stream
(stand-in for the SipHash-1-3 finalization). -/
def DefaultHasher.finish (hsh : DefaultHasher) : Nat :=
  hsh.data.foldl (fun acc b => acc * 31 + b + 1) 5381

/-- The `For` key closure of the `Table` component:
`let mut hasher = DefaultHasher::new(); item.hash(&mut hasher);
hasher.finish()`.  `hashStream` is the byte stream the row type's
`Hash` implementation writes for an item. -/
def key_of {R : Type} (hashStream : R → List Nat) (item : R) : Nat :=
  ((DefaultHasher.new).write (hashStream item)).finish

/-- One render pass of the reconciler over the current collection
snapshot: the key of every row. -/
def rowKeys {R : Type} (hashStream : R → List Nat) (rows : List R) :
    List Nat :=
  rows.map (key_of hashStream)

/-- `TableSortingAlgorithm`. -/
inductive TableSortingAlgorithm where
  /-- The default, builtin sorting. -/
  | Default
  /-- A custom float sorting algorithm. -/
  | Float
deriving DecidableEq, Repr

/-- The `Display` rendering of `TableSortingAlgorithm`. -/
def TableSortingAlgorithm.toString : TableSortingAlgorithm → String
  | .Default => ""
  | .Float => "float"

/-- The per-column sorting class computed in the heading renderer:
`sorting_vec.get(idx).map(|s| s.to_owned()).map(|sort| sort.to_string())
.unwrap_or("".to_string())`. -/
def sortingClass (sorting_vec : List TableSortingAlgorithm) (idx : Nat) :
    String :=
  (((sorting_vec.get? idx).map (fun s => s)).map
    (fun sort => sort.toString)).getD ""

/-! ## `src/modules/modal.rs` — the serde-serializing variant

The same source file carries a second, disabled flavor of the modal
bindings (the block-commented code at the end of the file): a plain
`ModalConfig` struct serialized to a host parameter object via
`JsValue::from_serde`, with `Modal::new` returning
`anyhow::Result<Self>` and a `query_from_selector` constructor that
surfaces the caught host exception.  Modelled here with an `SV` prefix
to keep it apart from the active code. -/

/-- The serde variant's `ModalAction` struct. -/
structure SVModalAction where
  text : String
  class_ : String
deriving DecidableEq, Repr

/-- The serde variant's `ModalConfig` struct. -/
structure SVModalConfig where
  title : String
  class_ : String
  close_icon : Bool
  content : String
  actions : List SVModalAction
deriving DecidableEq, Repr

/-- The serde variant's `Modal`: an extern opaque host reference. -/
structure SVModal where
  id : Nat
deriving DecidableEq, Repr

/-- Debug formatting `format!("{e:#?}")` applied to the caught host
exception: renders the `JsValue` diagnostic into the error message. -/
def anyhow_format (e : JsValue) : String :=
  "JsValue(" ++ Nat.repr e.val ++ ")"

/-- The serde variant's `Modal::new(config)`:
`JsValue::from_serde(&config).map_err(|e| anyhow!(e))?`, then one
`$.modal` host constructor call with the serialized value.
`from_serde` is the external serialization boundary (spec §1: a
boundary contract, not reimplemented): it yields either the serialized
host value or a serialization error message. -/
def SVModal.new (from_serde : SVModalConfig → Except String JsValue)
    (config : SVModalConfig) (h : Host) : Except String (SVModal × Host) :=
  match from_serde config with
  | .error e => .error e
  | .ok v =>
    let (i, h') := h.alloc
    .ok (⟨i⟩, h'.emit (.ctorModalFromValue v i))

/-- The serde variant's `Modal::query_from_selector(selector)`:
`new_modal_from_selector(..).map_err(|e| anyhow!(format!("{e:#?}")))?`.
`lookup` is the extern catch-enabled `$` host query: it yields either
the found host object or the thrown `JsValue`. -/
def SVModal.query_from_selector
    (lookup : String → Except JsValue SVModal) (selector : String) :
    Except String SVModal :=
  match lookup selector with
  | .ok m => .ok m
  | .error e => .error (anyhow_format e)

/-! ## Theorems -/

/-- C6: `sortingClass` maps every column index of an empty selection
list to the empty/default token; for the selection `[Float]` it yields
the host token `"float"` at index `0` and the default token at every
index `≥ 1`; any out-of-range index yields the empty token (never an
error — the function is total); and the `Default` selection renders to
the empty string. -/
theorem sort_token_defaulting :
    (∀ i, sortingClass [] i = "")
    ∧ sortingClass [.Float] 0 = "float"
    ∧ (∀ i, sortingClass [.Float] (i + 1) = "")
    ∧ (∀ v i, sortingClass v (v.length + i) = "")
    ∧ TableSortingAlgorithm.toString .Default = "" := by
  refine ⟨fun i => ?_, rfl, fun i => ?_, fun v i => ?_, rfl⟩
  · simp [sortingClass]
  · simp [sortingClass]
  · simp only [sortingClass, Option.map_map]
    rw [List.get?_eq_none.mpr (Nat.le_add_right _ _)]
    rfl

/-- C10: `ToastConfig::display_time` writes exactly the `displayTime`
property of the bag — the decimal rendering of `t` for `Time t`, the
string `"0"` for `UntilClicked`, `"auto"` for `BasedOnWordAmount` — so
`Time 0` and `UntilClicked` produce identical configurations. -/
theorem display_time_single_property :
    (∀ (c : ToastConfig) (t : Nat), (c.display_time (.Time t)).js_config
      = { c.js_config with displayTime := some (Nat.repr t) })
    ∧ (∀ c : ToastConfig,
        c.display_time (.Time 0) = c.display_time .UntilClicked)
    ∧ (∀ c : ToastConfig, (c.display_time .UntilClicked).js_config
      = { c.js_config with displayTime := some "0" })
    ∧ (∀ c : ToastConfig, (c.display_time .BasedOnWordAmount).js_config
      = { c.js_config with displayTime := some "auto" }) := by
  refine ⟨fun c t => rfl, fun c => rfl, fun c => rfl, fun c => rfl⟩

/-- C7: every imperative `Modal` operation appends exactly its fixed
command token to the host trace (with no return value and no failure —
the operations are total functions into `Host`); the queries `can_fit`
and `is_active` forward the tokens `"can fit"` / `"is active"` and
return the host oracle's boolean; consecutive calls append their tokens
in call order. -/
theorem modal_commands_forward_tokens (m : Modal) (h : Host) :
    (m.show h).events = h.events ++ [.cmd m.js_modal.id "show"]
    ∧ (m.hide h).events = h.events ++ [.cmd m.js_modal.id "hide"]
    ∧ (m.toggle h).events = h.events ++ [.cmd m.js_modal.id "toggle"]
    ∧ (m.refresh h).events = h.events ++ [.cmd m.js_modal.id "refresh"]
    ∧ (m.show_dimmer h).events
      = h.events ++ [.cmd m.js_modal.id "show dimmer"]
    ∧ (m.hide_dimmer h).events
      = h.events ++ [.cmd m.js_modal.id "hide dimmer"]
    ∧ (m.hide_others h).events
      = h.events ++ [.cmd m.js_modal.id "hide others"]
    ∧ (m.hide_all h).events = h.events ++ [.cmd m.js_modal.id "hide all"]
    ∧ (m.cache_sizes h).events
      = h.events ++ [.cmd m.js_modal.id "cache sizes"]
    ∧ (m.set_active h).events
      = h.events ++ [.cmd m.js_modal.id "set active"]
    ∧ (m.destroy h).events = h.events ++ [.cmd m.js_modal.id "destroy"]
    ∧ (m.can_fit h).1 = h.boolOracle m.js_modal.id "can fit"
    ∧ (m.can_fit h).2.events = h.events
      ++ [.boolQuery m.js_modal.id "can fit"
            (h.boolOracle m.js_modal.id "can fit")]
    ∧ (m.is_active h).1 = h.boolOracle m.js_modal.id "is active"
    ∧ (m.is_active h).2.events = h.events
      ++ [.boolQuery m.js_modal.id "is active"
            (h.boolOracle m.js_modal.id "is active")]
    ∧ (m.hide (m.show h)).events = h.events
      ++ [.cmd m.js_modal.id "show", .cmd m.js_modal.id "hide"] := by
  repeat' constructor
  all_goals
    simp [Modal.show, Modal.hide, Modal.toggle, Modal.refresh,
      Modal.show_dimmer, Modal.hide_dimmer, Modal.hide_others,
      Modal.hide_all, Modal.cache_sizes, Modal.set_active, Modal.destroy,
      Modal.can_fit, Modal.is_active, JsModal.modal,
      JsModal.modal_returns_bool, Host.emit]

/-- C9: freshly constructed builders hold default closures — the
`Action` click and all six `ModalConfig` lifecycle handlers return
`true`, the `ToastConfig` handler does nothing — yet write none of
their handles into the property bag: after construction every bag is
pristine (every callback property `none`); the handle appears in the
bag only once the corresponding setter is called. -/
theorem fresh_builders_write_no_callback_entries (h : Host) :
    (Action.new h).1.js_config = ActionBag.new
    ∧ (Action.new h).1.js_config.click = none
    ∧ (Action.new h).1.click.fn = (fun _ => true)
    ∧ (ModalConfig.default h).1.js_config = ModalBag.new
    ∧ (ModalConfig.default h).1.js_config.onShow = none
    ∧ (ModalConfig.default h).1.js_config.onVisible = none
    ∧ (ModalConfig.default h).1.js_config.onHide = none
    ∧ (ModalConfig.default h).1.js_config.onHidden = none
    ∧ (ModalConfig.default h).1.js_config.onApprove = none
    ∧ (ModalConfig.default h).1.js_config.onDeny = none
    ∧ (ModalConfig.default h).1.on_show.fn = (fun _ => true)
    ∧ (ModalConfig.default h).1.on_visible.fn = (fun _ => true)
    ∧ (ModalConfig.default h).1.on_hide.fn = (fun _ => true)
    ∧ (ModalConfig.default h).1.on_hidden.fn = (fun _ => true)
    ∧ (ModalConfig.default h).1.on_approve.fn = (fun _ => true)
    ∧ (ModalConfig.default h).1.on_deny.fn = (fun _ => true)
    ∧ (ToastConfig.new h).1.js_config = ToastBag.new
    ∧ (ToastConfig.new h).1.js_config.handler = none
    ∧ (ToastConfig.new h).1.handler.fn = (fun _ => ())
    ∧ (∀ (mc : ModalConfig) (f : Unit → Bool),
        (mc.set_on_show f h).1.js_config.onShow
          = some (mc.set_on_show f h).1.on_show.id)
    ∧ (∀ (mc : ModalConfig) (f : Unit → Bool),
        (mc.set_on_visible f h).1.js_config.onVisible
          = some (mc.set_on_visible f h).1.on_visible.id)
    ∧ (∀ (mc : ModalConfig) (f : JsValue → Bool),
        (mc.set_on_hide f h).1.js_config.onHide
          = some (mc.set_on_hide f h).1.on_hide.id)
    ∧ (∀ (mc : ModalConfig) (f : Unit → Bool),
        (mc.set_on_hidden f h).1.js_config.onHidden
          = some (mc.set_on_hidden f h).1.on_hidden.id)
    ∧ (∀ (mc : ModalConfig) (f : JsValue → Bool),
        (mc.set_on_approve f h).1.js_config.onApprove
          = some (mc.set_on_approve f h).1.on_approve.id)
    ∧ (∀ (mc : ModalConfig) (f : JsValue → Bool),
        (mc.set_on_deny f h).1.js_config.onDeny
          = some (mc.set_on_deny f h).1.on_deny.id)
    ∧ (∀ (a : Action) (f : Unit → Bool),
        (a.click_handler f h).1.js_config.click
          = some (a.click_handler f h).1.click.id) := by
  repeat' constructor
  all_goals intros
  all_goals rfl

/-- C3: evaluation of the finalisation step on concrete inputs.  The
Toast scenario (`with_message "Saved"`, `with_title "Done"`,
`position BottomRight`, then `Toast::new`) performs exactly one host
constructor call, whose bag has `message = "Saved"`, `title = "Done"`,
`position = "bottom right"` and no actions array.  `Modal::new`,
however, performs TWO host constructor calls: the explicit
`new_modal(&modal_config)` with the accumulated bag, plus a second
`$.modal` call on a fresh default bag made by the
`..Default::default()` base of the struct expression. -/
theorem finalize_ctor_call_counts :
    (let (cfg, h) := ToastConfig.new Host.init
     let cfg := ((cfg.with_message "Saved").with_title "Done").position
       .BottomRight
     let (_, h') := Toast.new cfg h
     h'.events = [.ctorToast { message := some "Saved"
                               title := some "Done"
                               position := some "bottom right" } 1]
     ∧ ctorCount h'.events = 1
     ∧ cfg.js_config.actions = none)
    ∧ (let (mc, h) := ModalConfig.default Host.init
       let (mc, h) := mc.set_on_show (fun _ => false) h
       let (_, h') := Modal.new mc h
       h'.events = [.ctorModal { onShow := some 6 } 7,
         .ctorModal ModalBag.new 14]
       ∧ ctorCount h'.events = 2) := by
  exact ⟨⟨rfl, rfl, rfl⟩, rfl, rfl⟩

/-- C5: row keys are deterministic and per-item.  Provided the row
type's `Hash`/`Eq` implementations are consistent (equal items feed the
hasher the same stream — the contract Rust requires of `Hash`), two
equal items get the same key; re-running a render pass on unchanged
data reproduces the keys; and the key at index `i` is computed from the
item at index `i` alone. -/
theorem key_of_deterministic {R : Type} (hashStream : R → List Nat)
    (eqR : R → R → Prop)
    (lawful : ∀ a b, eqR a b → hashStream a = hashStream b) :
    (∀ a b, eqR a b → key_of hashStream a = key_of hashStream b)
    ∧ (∀ rows rows' : List R, rows = rows' →
        rowKeys hashStream rows = rowKeys hashStream rows')
    ∧ (∀ (rows : List R) (i : Nat), (rowKeys hashStream rows).get? i
        = (rows.get? i).map (key_of hashStream)) := by
  refine ⟨fun a b hab => ?_, fun rows rows' hr => by rw [hr],
    fun rows i => ?_⟩
  · simp only [key_of, lawful a b hab]
  · simp [rowKeys, List.get?_eq_getElem?, List.getElem?_map]

/-- Witness for C5: two distinct pairs that are equal in the first
component (the application's equality) receive the same key under the
first-component hash stream. -/
theorem key_of_deterministic_witness :
    key_of (fun p : Nat × Nat => [p.1]) (3, 4)
      = key_of (fun p : Nat × Nat => [p.1]) (3, 9) :=
  (key_of_deterministic (fun p : Nat × Nat => [p.1])
    (fun a b => a.1 = b.1)
    (fun _ _ hab => congrArg (fun n => [n]) hab)).1 (3, 4) (3, 9) rfl

/-- C8: the only fallible operations.  The serde-serializing finalize
variant propagates the serialization failure to the caller as an error
result (and performs no host constructor call in that case), succeeding
with exactly one host constructor call otherwise; `query_from_selector`
propagates a failed host lookup as an error result carrying the
host-reported diagnostic, and returns the found object otherwise.  (All
operations of the active bindings are total functions — infallible by
type.) -/
theorem fallible_operations_surface_errors
    (from_serde : SVModalConfig → Except String JsValue)
    (lookup : String → Except JsValue SVModal) (config : SVModalConfig)
    (selector : String) (h : Host) :
    (∀ e, from_serde config = .error e →
      SVModal.new from_serde config h = .error e)
    ∧ (∀ v, from_serde config = .ok v →
        SVModal.new from_serde config h
          = .ok (⟨h.nextId⟩, (h.alloc.2).emit
              (.ctorModalFromValue v h.nextId))
        ∧ ctorCount ((h.alloc.2).emit
            (.ctorModalFromValue v h.nextId)).events
          = ctorCount h.events + 1)
    ∧ (∀ d, lookup selector = .error d →
        SVModal.query_from_selector lookup selector
          = .error (anyhow_format d))
    ∧ (∀ m, lookup selector = .ok m →
        SVModal.query_from_selector lookup selector = .ok m) := by
  refine ⟨fun e he => ?_, fun v hv => ⟨?_, ?_⟩, fun d hd => ?_,
    fun m hm => ?_⟩
  · simp [SVModal.new, he]
  · simp [SVModal.new, hv, Host.alloc, Host.emit]
  · simp [ctorCount, Host.emit, Host.alloc, HostEvent.isCtor]
  · simp [SVModal.query_from_selector, hd]
  · simp [SVModal.query_from_selector, hm]

/-- Witness for C8: a concrete always-failing serializer and a lookup
that fails on the requested selector with a concrete diagnostic. -/
theorem fallible_operations_surface_errors_witness :
    SVModal.new (fun _ => .error "unsupported value")
      ⟨"t", "c", true, "x", []⟩ Host.init = .error "unsupported value"
    ∧ SVModal.query_from_selector (fun _ => .error ⟨42⟩) ".missing"
      = .error (anyhow_format ⟨42⟩) :=
  ⟨(fallible_operations_surface_errors (fun _ => .error "unsupported value")
      (fun _ => .error ⟨42⟩) ⟨"t", "c", true, "x", []⟩ ".missing"
      Host.init).1 "unsupported value" rfl,
   (fallible_operations_surface_errors (fun _ => .error "unsupported value")
      (fun _ => .error ⟨42⟩) ⟨"t", "c", true, "x", []⟩ ".missing"
      Host.init).2.2.1 ⟨42⟩ rfl⟩

/-- C2: last-write-wins for every handler role.  For each of the six
`ModalConfig` lifecycle roles and for `Action::click`: attaching
handler `A`, then handler `B`, leaves the builder holding exactly the
`B` slot, with the property bag registering the current slot's handle
(never the stale `A` handle — the two handles differ); a host
invocation of the registered handle runs `B` and can never hit the `A`
slot; and finalisation hands the widget exactly the builder's current
configuration, so only `B` is reachable from the finalized widget. -/
theorem last_write_wins (h : Host) (mc : ModalConfig) (a : Action)
    (A B : Unit → Bool) (A2 B2 : JsValue → Bool) (v : JsValue) :
    (let s1 := mc.set_on_show A h
     let s2 := s1.1.set_on_show B s1.2
     s2.1.on_show.fn = B
       ∧ s2.1.js_config.onShow = some s2.1.on_show.id
       ∧ s1.1.on_show.id ≠ s2.1.on_show.id
       ∧ s2.1.on_show.invoke s2.1.on_show.id () = some (B ())
       ∧ s1.1.on_show.invoke s2.1.on_show.id () = none)
    ∧ (let s1 := mc.set_on_visible A h
       let s2 := s1.1.set_on_visible B s1.2
       s2.1.on_visible.fn = B
         ∧ s2.1.js_config.onVisible = some s2.1.on_visible.id
         ∧ s1.1.on_visible.id ≠ s2.1.on_visible.id
         ∧ s2.1.on_visible.invoke s2.1.on_visible.id () = some (B ())
         ∧ s1.1.on_visible.invoke s2.1.on_visible.id () = none)
    ∧ (let s1 := mc.set_on_hide A2 h
       let s2 := s1.1.set_on_hide B2 s1.2
       s2.1.on_hide.fn = B2
         ∧ s2.1.js_config.onHide = some s2.1.on_hide.id
         ∧ s1.1.on_hide.id ≠ s2.1.on_hide.id
         ∧ s2.1.on_hide.invoke s2.1.on_hide.id v = some (B2 v)
         ∧ s1.1.on_hide.invoke s2.1.on_hide.id v = none)
    ∧ (let s1 := mc.set_on_hidden A h
       let s2 := s1.1.set_on_hidden B s1.2
       s2.1.on_hidden.fn = B
         ∧ s2.1.js_config.onHidden = some s2.1.on_hidden.id
         ∧ s1.1.on_hidden.id ≠ s2.1.on_hidden.id
         ∧ s2.1.on_hidden.invoke s2.1.on_hidden.id () = some (B ())
         ∧ s1.1.on_hidden.invoke s2.1.on_hidden.id () = none)
    ∧ (let s1 := mc.set_on_approve A2 h
       let s2 := s1.1.set_on_approve B2 s1.2
       s2.1.on_approve.fn = B2
         ∧ s2.1.js_config.onApprove = some s2.1.on_approve.id
         ∧ s1.1.on_approve.id ≠ s2.1.on_approve.id
         ∧ s2.1.on_approve.invoke s2.1.on_approve.id v = some (B2 v)
         ∧ s1.1.on_approve.invoke s2.1.on_approve.id v = none)
    ∧ (let s1 := mc.set_on_deny A2 h
       let s2 := s1.1.set_on_deny B2 s1.2
       s2.1.on_deny.fn = B2
         ∧ s2.1.js_config.onDeny = some s2.1.on_deny.id
         ∧ s1.1.on_deny.id ≠ s2.1.on_deny.id
         ∧ s2.1.on_deny.invoke s2.1.on_deny.id v = some (B2 v)
         ∧ s1.1.on_deny.invoke s2.1.on_deny.id v = none)
    ∧ (let s1 := a.click_handler A h
       let s2 := s1.1.click_handler B s1.2
       s2.1.click.fn = B
         ∧ s2.1.js_config.click = some s2.1.click.id
         ∧ s1.1.click.id ≠ s2.1.click.id
         ∧ s2.1.click.invoke s2.1.click.id () = some (B ())
         ∧ s1.1.click.invoke s2.1.click.id () = none)
    ∧ (∀ (mc' : ModalConfig) (h' : Host),
        (Modal.new mc' h').1.modal_config = mc') := by
  refine ⟨⟨rfl, rfl, ?_, ?_, ?_⟩, ⟨rfl, rfl, ?_, ?_, ?_⟩,
    ⟨rfl, rfl, ?_, ?_, ?_⟩, ⟨rfl, rfl, ?_, ?_, ?_⟩,
    ⟨rfl, rfl, ?_, ?_, ?_⟩, ⟨rfl, rfl, ?_, ?_, ?_⟩,
    ⟨rfl, rfl, ?_, ?_, ?_⟩, fun mc' h' => rfl⟩
  all_goals
    simp [ModalConfig.set_on_show, ModalConfig.set_on_visible,
      ModalConfig.set_on_hide, ModalConfig.set_on_hidden,
      ModalConfig.set_on_approve, ModalConfig.set_on_deny,
      Action.click_handler, Closure.new, Closure.invoke, Host.alloc]

/-- C1 (counterexample): `Toast::new` takes the `ToastConfig` by
reference and returns the bare extern `Toast` handle, which owns no
callback slots — at the concrete fresh configuration (which owns its
default handler slot) the finalized widget has NOT taken ownership of
every slot the builder held. -/
theorem toast_new_transfers_no_slots_cex :
    (ToastConfig.new Host.init).1.ownedSlotIds ≠ []
    ∧ ¬ (∀ i ∈ (ToastConfig.new Host.init).1.ownedSlotIds,
          i ∈ (Toast.new (ToastConfig.new Host.init).1
                (ToastConfig.new Host.init).2).1.ownedSlotIds) := by
  refine ⟨by decide, fun hall => ?_⟩
  exact absurd (hall 0 (by decide)) (by decide)

/-- C1 (amended): `Modal::new` consumes its `ModalConfig` by value and
the resulting `Modal` owns exactly the builder's slots (the six
lifecycle slots; its per-action list starts empty and the template
handlers absent), so slot ownership passes from the builder to the
widget with no sharing.  `Toast::new`, by contrast, only borrows the
`ToastConfig`: the returned extern `Toast` owns no slots, and the
configuration retains ownership of its handler and per-action slots. -/
theorem modal_takes_ownership_toast_retains (h : Host) (mc : ModalConfig)
    (cfg : ToastConfig) :
    (Modal.new mc h).1.modal_config = mc
    ∧ (Modal.new mc h).1.ownedSlotIds = mc.ownedSlotIds
    ∧ (Modal.new mc h).1.action_handler_list = []
    ∧ (Modal.new mc h).1.alert_handler = none
    ∧ (Modal.new mc h).1.confirm_handler = none
    ∧ (Modal.new mc h).1.prompt_handler = none
    ∧ (Toast.new cfg h).1.ownedSlotIds = []
    ∧ (Toast.new cfg h).2.events
      = h.events ++ [.ctorToast cfg.js_config h.nextId] := by
  refine ⟨rfl, ?_, rfl, rfl, rfl, rfl, rfl, rfl⟩
  simp [Modal.ownedSlotIds, Modal.new, Modal.default, ModalConfig.default,
    new_modal, Host.alloc, Host.emit, Closure.new]

/-- C4 (counterexample): a `ToastConfig` holding `k = 1` attached
`Action` does not yield a finalized widget owning one action slot:
the extern `Toast` returned by `Toast::new` owns zero slots (the
configuration keeps the action's click slot). -/
theorem toast_action_slots_not_owned_cex :
    (let (a, h) := Action.new Host.init
     let (a, h) := a.click_handler (fun _ => false) h
     let (cfg, h) := ToastConfig.new h
     let cfg := cfg.with_actions [a]
     cfg.action_handler_list.length = 1
       ∧ ¬ ((Toast.new cfg h).1.ownedSlotIds.length = 1)) := by
  exact ⟨rfl, by decide⟩

/-- C4 (amended): `with_actions` on both receivers extends (never
replaces) the receiver's owned per-action slot list with each action's
click slot in order, and writes the ordered list of the actions'
property-bag fragments into the bag's `actions` property; an action
built with `click` carries its own slot's handle in its fragment.  For
`Modal` the receiver is the widget itself, so a widget finalized with
`Modal::new` and then given `k` actions owns exactly those `k` click
slots, positionally wired.  For `Toast` the `k` slots stay owned by the
`ToastConfig` (positionally wired through its bag); the extern `Toast`
returned by finalization owns none of them. -/
theorem with_actions_transfer_amended (h : Host) (m : Modal)
    (cfg : ToastConfig) (mc : ModalConfig) (actions : List Action) :
    (m.with_actions actions).action_handler_list
      = m.action_handler_list ++ actions.map (fun act => act.click)
    ∧ (m.with_actions actions).modal_config.js_config.actions
      = some (actions.map (fun act => act.js_config))
    ∧ (cfg.with_actions actions).action_handler_list
      = cfg.action_handler_list ++ actions.map (fun act => act.click)
    ∧ (cfg.with_actions actions).js_config.actions
      = some (actions.map (fun act => act.js_config))
    ∧ ((Modal.new mc h).1.with_actions actions).action_handler_list
      = actions.map (fun act => act.click)
    ∧ ((Modal.new mc h).1.with_actions actions).action_handler_list.length
      = actions.length
    ∧ (∀ (a : Action) (f : Unit → Bool),
        ((a.click_handler f h).1.js_config.click
          = some (a.click_handler f h).1.click.id))
    ∧ (cfg.with_actions actions).ownedSlotIds
      = cfg.handler.id :: (cfg.action_handler_list.map (fun cl => cl.id)
          ++ (actions.map (fun act => act.click)).map (fun cl => cl.id))
    ∧ (Toast.new (cfg.with_actions actions) h).1.ownedSlotIds = [] := by
  refine ⟨rfl, rfl, rfl, rfl, rfl, ?_, fun a f => rfl, ?_, rfl⟩
  · simp [Modal.with_actions, Modal.new, Modal.default]
  · simp [ToastConfig.ownedSlotIds, ToastConfig.with_actions]

end FomanticUI
